import Mathlib

/-!
# Video analyzer pipeline: a shallow embedding

This file embeds the core pipeline of the video-analyzer notebook
(frame sampling, audio extraction and transcription, per-frame
captioning with failure isolation, and report assembly) as executable
Lean definitions, and proves the specified properties about them.

Machine floats of the source are modelled as rationals; Python's
side-effecting loops are modelled as pure list computations; fallible
stages return Except values.
-/

namespace VideoAnalyzer

/-- Python's int() conversion on a rational: truncation toward zero. -/
def pyInt (q : ℚ) : ℤ := if 0 ≤ q then ⌊q⌋ else ⌈q⌉

/-- Step 2 fallback: `fps = vidcap.get(CAP_PROP_FPS); if fps <= 0: fps = 30`. -/
def effective_fps (fps : ℚ) : ℚ := if fps ≤ 0 then 30 else fps

/-- Step 2: `frame_interval = int(fps * 2)` (capture every 2 seconds),
computed after the fallback substitution. -/
def frame_interval (fps : ℚ) : ℤ := pyInt (effective_fps fps * 2)

/-- The spec's step formula, stated in the spec's own words:
round(frameRate × interval). Used only for comparison against the code. -/
def spec_step_round (rate I : ℚ) : ℤ := round (rate * I)

/-- The amended step formula: int(frameRate × interval), Python truncation.
Used only for comparison against the code. -/
def spec_step_trunc (rate I : ℚ) : ℤ := pyInt (rate * I)

/-- Python `range(0, stop, step)` for a positive step: the arithmetic
progression 0, step, 2·step, … strictly below stop. -/
def pyRange (stop step : ℕ) : List ℕ := List.range' 0 ((stop + step - 1) / step) step

/-- Step 2 sampling loop: `for frame_num in range(0, total_frames, frame_interval)`,
reading each target frame; frames whose read succeeds are saved in order.
Python's range raises ValueError when the step is 0, which the loop does not
catch; the decoded-success outcome of each seek/read is abstracted as the
predicate `decode`. The step is never negative here because the fallback
makes the effective fps positive. Returns the saved source frame numbers. -/
def extract_frames (fps : ℚ) (total_frames : ℕ) (decode : ℕ → Bool) :
    Except String (List ℕ) :=
  let step := frame_interval fps
  if step = 0 then .error "range() arg 3 must not be zero"
  else .ok ((pyRange total_frames step.toNat).filter decode)

/-- Step 2 scratch filename: `f"frame_{saved_count:04d}.jpg"`'s padding part,
the decimal digits of n left-padded with '0' to width 4. -/
def pad4 (n : ℕ) : String := ⟨List.replicate (4 - (Nat.toDigits 10 n).length) '0' ++ Nat.toDigits 10 n⟩

/-- Step 2 scratch filename for the frame with saved index n. -/
def frame_filename (n : ℕ) : String := "frame_" ++ pad4 n ++ ".jpg"

/-- Step 4 `analyze_image_with_phi`: the whole body runs under try/except;
on any exception the function returns the sentinel string
"Description failed: <reason>". The model call (decode, prompt, generate)
is abstracted as the fallible function `caption`. -/
def analyze_image_with_phi (caption : String → Except String String)
    (img_path : String) : String :=
  match caption img_path with
  | .ok desc => desc
  | .error e => "Description failed: " ++ e

/-- Step 5 analysis loop: raises FileNotFoundError when no frame files exist,
otherwise appends one description per frame file, in order. -/
def analyze_frames (caption : String → Except String String)
    (frame_files : List String) : Except String (List String) :=
  if frame_files.isEmpty then .error "No frames found for analysis"
  else .ok (frame_files.map (analyze_image_with_phi caption))

/-- Step 3: `video.audio.write_audiofile(...)` raises (AttributeError on a
source with no audio stream, since video.audio is None) before Whisper is
loaded; on success the Whisper transcription runs on the extracted audio. -/
def extract_and_transcribe {α : Type} (audio : Option α) (transcribe : α → String) :
    Except String String :=
  match audio with
  | none => .error "AttributeError: NoneType object has no attribute write_audiofile"
  | some a => .ok (transcribe a)

/-- Python's 02d format on a natural number: left-pad the decimal digits
with '0' to width 2. -/
def two_digit (n : ℕ) : String := if n < 10 then "0" ++ toString n else toString n

/-- Step 6 per-frame report entry:
timestamp = i * 2; mins, secs = divmod(timestamp, 60);
the line `[i+1] @ MM:SS` followed by the description. -/
def frame_entry (i : ℕ) (desc : String) : String :=
  let timestamp := i * 2
  let mins := timestamp / 60
  let secs := timestamp % 60
  "\n[" ++ toString (i + 1) ++ "] @ " ++ two_digit mins ++ ":" ++ two_digit secs
    ++ "\n" ++ desc ++ "\n"

/-- Step 6 detailed-descriptions loop, accumulated onto the report string. -/
def detailed_section (descs : List String) : String :=
  (descs.enum.map (fun p => frame_entry p.1 p.2)).foldl (· ++ ·) ""

/-- Step 6 key-observations block: present only when there is at least one
description; first and last descriptions truncated to 150 characters. -/
def key_observations (descs : List String) : String :=
  match descs with
  | [] => ""
  | d :: rest =>
    "- First frame: " ++ d.take 150 ++ "...\n" ++
    "- Last frame: " ++ ((d :: rest).getLast (List.cons_ne_nil d rest)).take 150 ++ "...\n\n"

/-- Step 6 report assembly. The generation time, the source path and the
formatted duration are opaque strings supplied by the environment. -/
def generate_report (gen_time video_path duration_str : String)
    (frame_descriptions : List String) (transcript : String) : String :=
  "🎥 VIDEO ANALYSIS REPORT\nGenerated: " ++ gen_time
    ++ "\nOriginal file: " ++ video_path
    ++ "\nDuration: " ++ duration_str ++ " seconds\nFrames analyzed: "
    ++ toString frame_descriptions.length
    ++ "\n\n=== KEY OBSERVATIONS ===\n"
    ++ key_observations frame_descriptions
    ++ "=== DETAILED FRAME DESCRIPTIONS ===\n"
    ++ detailed_section frame_descriptions
    ++ "\n\n=== AUDIO TRANSCRIPT ===\n"
    ++ transcript

/-- The (derived timestamp, caption text) pairs of the Step 6 loop. -/
def report_pairs (descs : List String) : List (ℕ × String) :=
  descs.enum.map (fun p => (p.1 * 2, p.2))

/-- Steps 5 and 6 composed: analysis must succeed before any report is built. -/
def analysis_and_report (caption : String → Except String String)
    (frame_files : List String)
    (gen_time video_path duration_str transcript : String) : Except String String :=
  (analyze_frames caption frame_files).map
    (fun descs => generate_report gen_time video_path duration_str descs transcript)

/-- The four decimal digit characters of n < 10000, most significant first;
the characterization target for pad4. -/
def dig4 (n : ℕ) : List Char :=
  [Nat.digitChar (n / 1000 % 10), Nat.digitChar (n / 100 % 10),
   Nat.digitChar (n / 10 % 10), Nat.digitChar (n % 10)]

/-- A concrete captioner that fails exactly on the second frame file,
used to witness failure isolation. -/
def cap_fail1 : String → Except String String := fun s =>
  if s = "frame_0001.jpg" then .error "CUDA out of memory"
  else .ok ("a view of scene " ++ s)

/-! ## Helper lemmas -/

theorem toDigitsCore_of_lt (f m : ℕ) (acc : List Char) (hm : m < 10) (hf : 1 ≤ f) :
    Nat.toDigitsCore 10 f m acc = Nat.digitChar m :: acc := by
  cases f with
  | zero => omega
  | succ f =>
    simp [Nat.toDigitsCore, Nat.div_eq_of_lt hm, Nat.mod_eq_of_lt hm]

theorem toDigitsCore_of_ge (f m : ℕ) (acc : List Char) (hm : 10 ≤ m) (hf : 1 ≤ f) :
    Nat.toDigitsCore 10 f m acc
      = Nat.toDigitsCore 10 (f - 1) (m / 10) (Nat.digitChar (m % 10) :: acc) := by
  cases f with
  | zero => omega
  | succ f =>
    have h : ¬ m / 10 = 0 := by omega
    simp [Nat.toDigitsCore, h]

theorem toDigits_eq_of_lt_10 (m : ℕ) (hm : m < 10) :
    Nat.toDigits 10 m = [Nat.digitChar m] := by
  rw [Nat.toDigits, toDigitsCore_of_lt _ _ _ hm (by omega)]

theorem toDigits_eq_of_lt_100 (m : ℕ) (h1 : 10 ≤ m) (h2 : m < 100) :
    Nat.toDigits 10 m = [Nat.digitChar (m / 10), Nat.digitChar (m % 10)] := by
  rw [Nat.toDigits, toDigitsCore_of_ge _ _ _ h1 (by omega),
    toDigitsCore_of_lt _ _ _ (by omega) (by omega)]

theorem toDigits_eq_of_lt_1000 (m : ℕ) (h1 : 100 ≤ m) (h2 : m < 1000) :
    Nat.toDigits 10 m
      = [Nat.digitChar (m / 100), Nat.digitChar (m / 10 % 10), Nat.digitChar (m % 10)] := by
  rw [Nat.toDigits, toDigitsCore_of_ge _ _ _ (by omega) (by omega),
    toDigitsCore_of_ge _ _ _ (by omega) (by omega),
    toDigitsCore_of_lt _ _ _ (by omega) (by omega),
    Nat.div_div_eq_div_mul]

theorem toDigits_eq_of_lt_10000 (m : ℕ) (h1 : 1000 ≤ m) (h2 : m < 10000) :
    Nat.toDigits 10 m
      = [Nat.digitChar (m / 1000), Nat.digitChar (m / 100 % 10),
         Nat.digitChar (m / 10 % 10), Nat.digitChar (m % 10)] := by
  rw [Nat.toDigits, toDigitsCore_of_ge _ _ _ (by omega) (by omega),
    toDigitsCore_of_ge _ _ _ (by omega) (by omega),
    toDigitsCore_of_ge _ _ _ (by omega) (by omega),
    toDigitsCore_of_lt _ _ _ (by omega) (by omega),
    Nat.div_div_eq_div_mul, Nat.div_div_eq_div_mul, Nat.div_div_eq_div_mul]

theorem pad4_data_eq (n : ℕ) (hn : n < 10000) : (pad4 n).data = dig4 n := by
  rcases Nat.lt_or_ge n 10 with h | h10
  · rw [pad4, toDigits_eq_of_lt_10 n h]
    have e3 : n / 1000 % 10 = 0 := by omega
    have e2 : n / 100 % 10 = 0 := by omega
    have e1 : n / 10 % 10 = 0 := by omega
    have e0 : n % 10 = n := by omega
    simp [dig4, e3, e2, e1, e0, List.replicate, Nat.digitChar]
  rcases Nat.lt_or_ge n 100 with h | h100
  · rw [pad4, toDigits_eq_of_lt_100 n h10 h]
    have e3 : n / 1000 % 10 = 0 := by omega
    have e2 : n / 100 % 10 = 0 := by omega
    have e1 : n / 10 % 10 = n / 10 := by omega
    simp [dig4, e3, e2, e1, List.replicate, Nat.digitChar]
  rcases Nat.lt_or_ge n 1000 with h | h1000
  · rw [pad4, toDigits_eq_of_lt_1000 n h100 h]
    have e3 : n / 1000 % 10 = 0 := by omega
    have e2 : n / 100 % 10 = n / 100 := by omega
    simp [dig4, e3, e2, List.replicate, Nat.digitChar]
  · rw [pad4, toDigits_eq_of_lt_10000 n h1000 hn]
    have e3 : n / 1000 % 10 = n / 1000 := by omega
    simp [dig4, e3, List.replicate]

theorem digitChar_lt_digitChar :
    ∀ a < 10, ∀ b < 10, a < b → Nat.digitChar a < Nat.digitChar b := by decide

theorem lex_append_left (p a b : List Char) (h : List.Lex (· < ·) a b) :
    List.Lex (· < ·) (p ++ a) (p ++ b) := by
  induction p with
  | nil => simpa using h
  | cons c p ih => exact .cons ih

theorem lex_append (a b s t : List Char) (h : List.Lex (· < ·) a b)
    (hl : a.length = b.length) : List.Lex (· < ·) (a ++ s) (b ++ t) := by
  induction h with
  | nil => simp at hl
  | cons _ ih => exact .cons (ih (by simpa using hl))
  | rel hab => exact .rel hab

theorem dig4_lt (i j : ℕ) (hij : i < j) (hj : j < 10000) :
    List.Lex (· < ·) (dig4 i) (dig4 j) := by
  have hmod : ∀ m : ℕ, m % 10 < 10 := fun m => Nat.mod_lt _ (by omega)
  rcases Nat.lt_or_ge (i / 1000 % 10) (j / 1000 % 10) with h | h
  · exact .rel (digitChar_lt_digitChar _ (hmod _) _ (hmod _) h)
  have e3 : i / 1000 % 10 = j / 1000 % 10 := by omega
  rw [dig4, dig4, e3]
  refine .cons ?_
  rcases Nat.lt_or_ge (i / 100 % 10) (j / 100 % 10) with h' | h'
  · exact .rel (digitChar_lt_digitChar _ (hmod _) _ (hmod _) h')
  have e2 : i / 100 % 10 = j / 100 % 10 := by omega
  rw [e2]
  refine .cons ?_
  rcases Nat.lt_or_ge (i / 10 % 10) (j / 10 % 10) with h'' | h''
  · exact .rel (digitChar_lt_digitChar _ (hmod _) _ (hmod _) h'')
  have e1 : i / 10 % 10 = j / 10 % 10 := by omega
  rw [e1]
  refine .cons ?_
  have h0 : i % 10 < j % 10 := by omega
  exact .rel (digitChar_lt_digitChar _ (hmod _) _ (hmod _) h0)

theorem frame_filename_lt (i j : ℕ) (hij : i < j) (hj : j < 10000) :
    frame_filename i < frame_filename j := by
  rw [String.lt_iff_toList_lt]
  have hdata : ∀ n : ℕ, (frame_filename n).toList
      = "frame_".toList ++ ((pad4 n).toList ++ ".jpg".toList) := by
    intro n
    rw [frame_filename]
    simp [String.toList, List.append_assoc]
  rw [hdata, hdata]
  refine lex_append_left _ _ _ ?_
  show List.Lex (· < ·) ((pad4 i).data ++ ".jpg".data) ((pad4 j).data ++ ".jpg".data)
  rw [pad4_data_eq i (by omega), pad4_data_eq j hj]
  exact lex_append _ _ _ _ (dig4_lt i j hij hj) rfl

theorem ceil_cast_div (a s : ℕ) (hs : 0 < s) :
    ⌈(a : ℚ) / (s : ℚ)⌉ = ((a + s - 1) / s : ℕ) := by
  have hsQ : (0 : ℚ) < s := by exact_mod_cast hs
  set q : ℕ := (a + s - 1) / s with hq
  have h1 : q * s ≤ a + s - 1 := Nat.div_mul_le_self _ _
  have h2 : a + s - 1 < q * s + s := by
    have := (Nat.div_lt_iff_lt_mul hs).mp (Nat.lt_succ_self q)
    calc a + s - 1 < (q + 1) * s := by rw [hq]; exact this
    _ = q * s + s := by ring
  obtain ⟨m, hm⟩ : ∃ m, q * s = m := ⟨_, rfl⟩
  rw [hm] at h1 h2
  have ha1 : a ≤ m := by omega
  have ha2 : m < a + s := by omega
  have hmq : (q : ℚ) * s = m := by exact_mod_cast hm
  have hlt : (m : ℚ) < a + s := by exact_mod_cast ha2
  have hle : (a : ℚ) ≤ m := by exact_mod_cast ha1
  rw [Int.ceil_eq_iff]
  constructor
  · rw [lt_div_iff hsQ]
    push_cast
    nlinarith [hmq, hlt]
  · rw [div_le_iff hsQ]
    push_cast
    nlinarith [hmq, hle]

end VideoAnalyzer

namespace VideoAnalyzer

/-! ## Claims -/

/-- C1, counterexample: the claimed step formula round(frameRate × interval)
disagrees with the code at the decoded frame rate 29.97 (with the code's
interval of 2 seconds): the code computes int(29.97 × 2) = 59 while the
spec formula gives round(59.94) = 60. -/
theorem C1_counterexample :
    frame_interval (2997 / 100) ≠ spec_step_round (2997 / 100) 2 := by
  have h1 : frame_interval (2997 / 100) = 59 := by
    norm_num [frame_interval, effective_fps, pyInt]
  have h2 : spec_step_round (2997 / 100) 2 = 60 := by
    rw [spec_step_round, round_eq]
    norm_num
  rw [h1, h2]
  decide

/-- C1, amended: the Frame Sampler computes the frame-number step as
int(frameRate × interval) — Python truncation, not rounding — substituting
the fallback rate 30 for the decoded rate whenever that rate is ≤ 0; with
the fallback in effect the step is int(30 × 2) = 60, which coincides with
round(30 × 2) because the product is exact. -/
theorem C1_amended (fps : ℚ) :
    (fps ≤ 0 →
      frame_interval fps = spec_step_trunc 30 2 ∧
      frame_interval fps = spec_step_round 30 2) ∧
    (0 < fps → frame_interval fps = spec_step_trunc fps 2) := by
  refine ⟨fun h => ⟨?_, ?_⟩, fun h => ?_⟩
  · rw [frame_interval, effective_fps, if_pos h, spec_step_trunc]
  · rw [frame_interval, effective_fps, if_pos h, spec_step_round, round_eq]
    norm_num [pyInt]
  · rw [frame_interval, effective_fps, if_neg (by linarith), spec_step_trunc]

/-- C1 witness: the amended formula evaluated at an invalid rate (−1, which
takes the fallback and yields the step 60 = round(30 × 2)) and at the
valid rate 24 (step int(24 × 2) = 48). -/
theorem C1_amended_witness :
    frame_interval (-1) = spec_step_round 30 2 ∧
    frame_interval 24 = spec_step_trunc 24 2 :=
  ⟨((C1_amended (-1)).1 (by norm_num)).2, (C1_amended 24).2 (by norm_num)⟩

/-- C2: when the step is valid (≥ 1) and every per-frame decode succeeds,
frame extraction succeeds and produces exactly
ceil(totalFrames / step) = (totalFrames + step − 1) / step sampled frames,
a count that never exceeds the total source frame count (and, being a
natural number, is bounded below by 0). -/
theorem C2_sample_count (fps : ℚ) (total_frames : ℕ)
    (h : 1 ≤ frame_interval fps) :
    ∃ l, extract_frames fps total_frames (fun _ => true) = .ok l ∧
      (l.length : ℤ)
        = ⌈(total_frames : ℚ) / (((frame_interval fps).toNat : ℕ) : ℚ)⌉ ∧
      l.length
        = (total_frames + (frame_interval fps).toNat - 1) / (frame_interval fps).toNat ∧
      l.length ≤ total_frames := by
  set s : ℕ := (frame_interval fps).toNat with hs
  have hs1 : 1 ≤ s := by omega
  have hne : ¬ frame_interval fps = 0 := by omega
  have hok : extract_frames fps total_frames (fun _ => true)
      = .ok (pyRange total_frames s) := by
    rw [extract_frames]
    simp only [hne, if_false]
    rw [List.filter_true]
  refine ⟨pyRange total_frames s, hok, ?_, ?_, ?_⟩
  · rw [pyRange, List.length_range', ceil_cast_div _ _ (by omega)]
  · rw [pyRange, List.length_range']
  · rw [pyRange, List.length_range']
    rw [Nat.div_le_iff_le_mul_add_pred (by omega)]
    have := Nat.le_mul_of_pos_left total_frames (show 0 < s by omega)
    obtain ⟨m, hm⟩ : ∃ m, s * total_frames = m := ⟨_, rfl⟩
    rw [hm] at this ⊢
    omega

/-- C2 witness: a 30 fps source with 7 total frames; step 60, so
ceil(7 / 60) = 1 frame is sampled, within the bound of 7. -/
theorem C2_sample_count_witness :
    ∃ l, extract_frames 30 7 (fun _ => true) = .ok l ∧
      (l.length : ℤ) = ⌈(7 : ℚ) / (((frame_interval 30).toNat : ℕ) : ℚ)⌉ ∧
      l.length = (7 + (frame_interval 30).toNat - 1) / (frame_interval 30).toNat ∧
      l.length ≤ 7 :=
  C2_sample_count 30 7 (by norm_num [frame_interval, effective_fps, pyInt])

/-- C3: if the captioner fails with reason e on the frame at index i, the
analysis still succeeds, yields one caption per frame, and records at index
i the sentinel text "Description failed: e" rather than aborting. -/
theorem C3_failure_sentinel (caption : String → Except String String)
    (fs : List String) (i : ℕ) (hi : i < fs.length) (e : String)
    (hfail : caption fs[i] = .error e) :
    ∃ descs, analyze_frames caption fs = .ok descs ∧
      descs.length = fs.length ∧
      descs[i]? = some ("Description failed: " ++ e) := by
  have hne : ¬ fs.isEmpty = true := by
    cases fs with
    | nil => simp at hi
    | cons a l => simp
  rw [analyze_frames, if_neg hne]
  refine ⟨fs.map (analyze_image_with_phi caption), rfl, by simp, ?_⟩
  rw [List.getElem?_map, List.getElem?_eq_getElem hi]
  show some (analyze_image_with_phi caption fs[i]) = _
  rw [analyze_image_with_phi, hfail]

/-- C3 witness: three frame files with a captioner that raises exactly on
the second; the run completes with 3 entries and entry 2 is the sentinel. -/
theorem C3_failure_sentinel_witness :
    ∃ descs,
      analyze_frames cap_fail1 ["frame_0000.jpg", "frame_0001.jpg", "frame_0002.jpg"]
        = .ok descs ∧
      descs.length = 3 ∧
      descs[1]? = some ("Description failed: " ++ "CUDA out of memory") :=
  C3_failure_sentinel cap_fail1 ["frame_0000.jpg", "frame_0001.jpg", "frame_0002.jpg"]
    1 (by decide) "CUDA out of memory" (by rfl)

/-- C4: whenever the Analysis Driver produces a caption sequence, it has
exactly the length of the input frame sequence and at every index holds the
caption of the frame at that same index — no silent drops. -/
theorem C4_length_alignment (caption : String → Except String String)
    (fs descs : List String) (h : analyze_frames caption fs = .ok descs) :
    descs.length = fs.length ∧
    ∀ i : ℕ, descs[i]? = fs[i]?.map (analyze_image_with_phi caption) := by
  rw [analyze_frames] at h
  by_cases he : fs.isEmpty
  · rw [if_pos he] at h
    cases h
  · rw [if_neg he] at h
    obtain rfl : fs.map (analyze_image_with_phi caption) = descs := by
      cases h
      rfl
    refine ⟨by simp, fun i => ?_⟩
    rw [List.getElem?_map]

/-- C4 witness: a two-frame run with an always-succeeding captioner. -/
theorem C4_length_alignment_witness :
    (["echo:a", "echo:b"] : List String).length
        = (["a", "b"] : List String).length ∧
    ∀ i : ℕ, (["echo:a", "echo:b"] : List String)[i]?
        = (["a", "b"] : List String)[i]?.map
            (analyze_image_with_phi (fun s => .ok ("echo:" ++ s))) :=
  C4_length_alignment (fun s => .ok ("echo:" ++ s)) ["a", "b"] ["echo:a", "echo:b"] (by rfl)

end VideoAnalyzer

namespace VideoAnalyzer

set_option maxRecDepth 100000 in
/-- C5: the round-trip report over 3 fake captions desc-0, desc-1, desc-2 and
the fake transcript "hello world": the detailed section tags the entries
@ 00:00, @ 00:02, @ 00:04 in that order (tag of index i being
(i·2 / 60):(i·2 mod 60), two digits each), and the assembled report is a
prefix followed by exactly "hello world" — the transcript appended last. -/
theorem C5_round_trip :
    detailed_section ["desc-0", "desc-1", "desc-2"] =
      "\n[1] @ 00:00\ndesc-0\n\n[2] @ 00:02\ndesc-1\n\n[3] @ 00:04\ndesc-2\n" ∧
    generate_report "2024-01-01 00:00:00" "video.mp4" "6.0"
        ["desc-0", "desc-1", "desc-2"] "hello world" =
      "🎥 VIDEO ANALYSIS REPORT\nGenerated: 2024-01-01 00:00:00\nOriginal file: video.mp4\nDuration: 6.0 seconds\nFrames analyzed: 3\n\n=== KEY OBSERVATIONS ===\n- First frame: desc-0...\n- Last frame: desc-2...\n\n=== DETAILED FRAME DESCRIPTIONS ===\n\n[1] @ 00:00\ndesc-0\n\n[2] @ 00:02\ndesc-1\n\n[3] @ 00:04\ndesc-2\n\n\n=== AUDIO TRANSCRIPT ===\n"
        ++ "hello world" := by
  constructor
  · decide
  · decide

/-- C6: in every assembled report the (timestamp, caption) pairs are in
strictly increasing timestamp order, matching caption index order, and the
timestamp sequence is exactly i · 2 (the code's interval I = 2) in index
order. -/
theorem C6_timestamps_increasing (descs : List String) :
    List.Pairwise (fun a b => a.1 < b.1) (report_pairs descs) ∧
    (report_pairs descs).map Prod.fst = (List.range descs.length).map (· * 2) := by
  constructor
  · rw [report_pairs, List.pairwise_map, List.pairwise_iff_get]
    intro i j hij
    rw [List.get_enum, List.get_enum]
    simpa using hij
  · rw [report_pairs, List.map_map]
    have h1 : (Prod.fst ∘ fun p : ℕ × String => (p.1 * 2, p.2))
        = (· * 2) ∘ Prod.fst := rfl
    rw [h1, ← List.map_map, List.enum_map_fst]

/-- C7: with zero frame files, the Step 5 guard fails the run with the
empty-analysis error before any captioning happens, and no report assembler
— not even an arbitrary one — is ever applied: the composed pipeline
returns the same error for every assembler and every report input. -/
theorem C7_empty_analysis_aborts (caption : String → Except String String) :
    (∀ assemble : List String → String,
      (analyze_frames caption []).map assemble
        = .error "No frames found for analysis") ∧
    ∀ gen_time video_path duration_str transcript : String,
      analysis_and_report caption [] gen_time video_path duration_str transcript
        = .error "No frames found for analysis" := by
  exact ⟨fun _ => rfl, fun _ _ _ _ => rfl⟩

/-- C8: on a source with no audio stream (audio is None), the audio stage
fails with the no-audio error and the result does not depend on the
transcriber — the Transcriber is never invoked. -/
theorem C8_no_audio_before_transcriber (α : Type) (transcribe : α → String) :
    extract_and_transcribe (none : Option α) transcribe
      = .error "AttributeError: NoneType object has no attribute write_audiofile" :=
  rfl

/-- C9: for a decoded frame rate strictly between 0 and 0.5 the fallback is
not taken (the rate is > 0), the computed step int(fps · 2) is 0, and the
sampling loop raises Python's zero-step range error instead of producing
any sampled frame. -/
theorem C9_zero_step_raises (fps : ℚ) (total_frames : ℕ) (decode : ℕ → Bool)
    (h0 : 0 < fps) (hhalf : fps < 1 / 2) :
    frame_interval fps = 0 ∧
    extract_frames fps total_frames decode
      = .error "range() arg 3 must not be zero" := by
  have hne : ¬ fps ≤ 0 := not_le.mpr h0
  have hstep : frame_interval fps = 0 := by
    rw [frame_interval, effective_fps, if_neg hne, pyInt,
      if_pos (by positivity : (0 : ℚ) ≤ fps * 2)]
    rw [Int.floor_eq_zero_iff]
    constructor
    · positivity
    · show fps * 2 < 1
      linarith
  exact ⟨hstep, by rw [extract_frames]; simp only [hstep, if_pos]⟩

/-- C9 witness: at the decoded rate 1/4 fps, with 100 total frames, the step
is 0 and extraction raises the zero-step error. -/
theorem C9_zero_step_raises_witness :
    frame_interval (1 / 4) = 0 ∧
    extract_frames (1 / 4) 100 (fun _ => true)
      = .error "range() arg 3 must not be zero" :=
  C9_zero_step_raises (1 / 4) 100 (fun _ => true) (by norm_num) (by norm_num)

/-- C10: for runs saving at most 9999 frames, the zero-padded scratch
filenames frame_0000.jpg, frame_0001.jpg, … listed in saved-index order are
strictly increasing in lexicographic (string) order, so sorting them — as
the Step 5 sorted glob does — returns the frames in exactly the order the
Frame Sampler produced them. -/
theorem C10_filenames_sorted (n : ℕ) (hn : n ≤ 9999) :
    List.Pairwise (· < ·) ((List.range n).map frame_filename) := by
  rw [List.pairwise_iff_get]
  intro i j hij
  rw [List.get_map, List.get_map]
  have hj : (j : ℕ) < n := by
    have := j.isLt
    simpa using this
  rw [List.get_range, List.get_range]
  exact frame_filename_lt _ _ hij (by omega)

/-- C10 witness: the first three scratch filenames are pairwise strictly
increasing lexicographically. -/
theorem C10_filenames_sorted_witness :
    3 ≤ 9999 ∧ List.Pairwise (· < ·) ((List.range 3).map frame_filename) :=
  ⟨by norm_num, C10_filenames_sorted 3 (by norm_num)⟩

end VideoAnalyzer
